import Mathlib

/-!
Verification of the workflow-trigger validation and branch-pattern-matching
engine of a CI workflow validator: the glob-superset comparator
patternIsSuperset and the structural validator validateWorkflow over
untrusted, loosely shaped configuration documents, together with the
diagnostic codes they produce.

The repository ships the test suite of these functions; the implementation
file itself is absent, so the functions below are modelled from the
specification and checked against every behaviour the test suite pins.
-/

/-- A JSON/YAML-like loosely typed value, as deserialized from a workflow
file.  JavaScript `undefined` is identified with `nullV`: for every check
performed here the two behave identically (key present, value not usable). -/
inductive Yaml where
  | nullV : Yaml
  | boolV : Bool → Yaml
  | numV : Int → Yaml
  | strV : String → Yaml
  | arrV : List Yaml → Yaml
  | objV : List (String × Yaml) → Yaml

/-- The enumerated diagnostic codes produced by the validator. -/
inductive WorkflowError where
  | MissingHooks
  | MissingPushHook
  | MissingPullRequestHook
  | PathsSpecified
  | MismatchedBranches
  | CheckoutWrongHead
deriving DecidableEq, Repr

/-- First binding of a key in an association list of fields. -/
def lookupKey (k : String) : List (String × Yaml) → Option Yaml
  | [] => none
  | (k', v) :: rest => if k = k' then some v else lookupKey k rest

/-- Defensive field access: `none` on every non-mapping value. -/
def lookupY (y : Yaml) (k : String) : Option Yaml :=
  match y with
  | .objV fields => lookupKey k fields
  | _ => none

/-- Whether a mapping carries the given key (defensively false elsewhere). -/
def hasKeyY (y : Yaml) (k : String) : Bool :=
  (lookupY y k).isSome

/-- Whether a list of loosely typed values contains the given string. -/
def containsStrY (xs : List Yaml) (s : String) : Bool :=
  xs.any fun y =>
    match y with
    | .strV t => decide (t = s)
    | _ => false

/-! ## Pattern Matcher -/

/-- Split a character list on the slash separator, keeping empty segments
(so an absolute-path-style pattern yields a leading empty segment). -/
def splitSegsAux : List Char → List Char → List String
  | [], acc => [String.mk acc.reverse]
  | c :: rest, acc =>
      if c = '/' then String.mk acc.reverse :: splitSegsAux rest []
      else splitSegsAux rest (c :: acc)

/-- Segments of a glob pattern: the pattern split on the slash separator. -/
def splitSegs (s : String) : List String :=
  splitSegsAux s.data []

/-- Modelled from the spec: the segment-by-segment recursive containment
check behind `patternIsSuperset` (the implementation file is absent from the
repository; only its tests remain).  A literal segment of the super pattern
dominates only an identical literal; a single-star segment dominates any
single literal or single-star segment but never a double-star segment; a
double-star segment of the super pattern dominates any suffix of the sub
pattern, trying every split point (backtracking). -/
def supersetSegs : List String → List String → Bool
  | [], sub => sub.isEmpty
  | s :: superRest, sub =>
      if s = "**" then
        (List.range (sub.length + 1)).any fun k =>
          supersetSegs superRest (sub.drop k)
      else
        match sub with
        | [] => false
        | t :: subRest =>
            if t = "**" then false
            else if s = "*" then supersetSegs superRest subRest
            else decide (s = t) && supersetSegs superRest subRest

/-- Modelled from the spec: returns true iff every path-like string matched
by `subPattern` is also matched by `superPattern`, comparing slash-separated
segment sequences (the implementation file is absent from the repository). -/
def patternIsSuperset (superPattern subPattern : String) : Bool :=
  supersetSegs (splitSegs superPattern) (splitSegs subPattern)

/-! ## Workflow Validator -/

/-- Modelled from the spec: normalization of a trigger object to its branch
filter, when one is carried: a bare string normalizes to a singleton set, a
sequence keeps its string members; an absent `branches` key or a value of
any other type means no filter is carried (`none`). -/
def branchFilter (t : Yaml) : Option (List String) :=
  match lookupY t "branches" with
  | some (.strV s) => some [s]
  | some (.arrV xs) =>
      some (xs.filterMap fun y =>
        match y with
        | .strV s => some s
        | _ => none)
  | _ => none

/-- Modelled from the spec: the branch set of a trigger, where an absent
filter means all branches, represented by the dominating pattern. -/
def branchPatterns (t : Yaml) : List String :=
  (branchFilter t).getD ["**"]

/-- Modelled from the spec: the pull_request branch set is mismatched when
some of its patterns is covered by no push pattern. -/
def mismatchedB (pushV prV : Yaml) : Bool :=
  (branchPatterns prV).any fun p =>
    !((branchPatterns pushV).any fun q => patternIsSuperset q p)

/-- Modelled from the spec: hook checks for the sequence-of-event-names
form of `on`: push membership is checked before pull_request membership and
the first failure is reported alone. -/
def eventListErrors (xs : List Yaml) : List WorkflowError :=
  if !(containsStrY xs "push") then [.MissingPushHook]
  else if !(containsStrY xs "pull_request") then [.MissingPullRequestHook]
  else []

/-- Modelled from the spec and the repository tests: hook checks for the
mapping form of `on`.  A mapping carrying neither key is treated as missing
hooks (as the tests pin); a missing push key is reported before a missing
pull_request key, eagerly; with both keys present the forbidden-paths check
and the branch consistency check run in that order. -/
def mappingErrors (fields : List (String × Yaml)) : List WorkflowError :=
  match lookupKey "push" fields, lookupKey "pull_request" fields with
  | none, none => [.MissingHooks]
  | none, some _ => [.MissingPushHook]
  | some _, none => [.MissingPullRequestHook]
  | some pushV, some prV =>
      (if hasKeyY pushV "paths" then [.PathsSpecified] else []) ++
      (if mismatchedB pushV prV then [.MismatchedBranches] else [])

/-- Modelled from the spec: hook-shape checks over the `on` field.  A string
is treated as a singleton event sequence; an absent `on`, or one of any
other shape, is missing hooks and stops the hook-shape checks. -/
def hookErrors (doc : Yaml) : List WorkflowError :=
  match lookupY doc "on" with
  | some (.strV s) => eventListErrors [.strV s]
  | some (.arrV xs) => eventListErrors xs
  | some (.objV fields) => mappingErrors fields
  | _ => [.MissingHooks]

/-- The forbidden literal command fragment checked for in job steps. -/
def checkoutMarker : String := "git checkout HEAD^2"

/-- Whether the pattern occurs as a contiguous sublist. -/
def containsSeq (pat : List Char) : List Char → Bool
  | [] => pat.isEmpty
  | c :: rest => pat.isPrefixOf (c :: rest) || containsSeq pat rest

/-- Modelled from the spec: whether a step object runs the forbidden
checkout command (its run command string contains the marker). -/
def stepHasCheckout (step : Yaml) : Bool :=
  match lookupY step "run" with
  | some (.strV s) => containsSeq checkoutMarker.data s.data
  | _ => false

/-- Modelled from the spec: whether a job object has a step running the
forbidden checkout command; non-sequence steps are tolerated. -/
def jobHasCheckout (job : Yaml) : Bool :=
  match lookupY job "steps" with
  | some (.arrV steps) => steps.any stepHasCheckout
  | _ => false

/-- Modelled from the spec: whether some job of the document has a step
running the forbidden checkout command; malformed `jobs` are tolerated. -/
def anyJobHasCheckout (doc : Yaml) : Bool :=
  match lookupY doc "jobs" with
  | some (.objV jobs) => jobs.any fun kv => jobHasCheckout kv.2
  | _ => false

/-- Modelled from the spec: the wrong-checkout check, which runs regardless
of whether the hook checks already failed. -/
def checkoutErrors (doc : Yaml) : List WorkflowError :=
  if anyJobHasCheckout doc then [.CheckoutWrongHead] else []

/-- Modelled from the spec: the workflow validator.  Hook-shape diagnostics
come first, in check order, followed by the wrong-checkout diagnostic. -/
def validateWorkflow (doc : Yaml) : List WorkflowError :=
  hookErrors doc ++ checkoutErrors doc

/-! ## The repository test suite, replayed against the model -/

example : validateWorkflow (.objV []) = [.MissingHooks] := by decide

example : validateWorkflow (.objV [("on", .objV [])]) = [.MissingHooks] := by
  decide

example :
    validateWorkflow (.objV [("on", .arrV [.strV "push"])]) =
      [.MissingPullRequestHook] := by decide

example :
    validateWorkflow (.objV [("on", .arrV [.strV "pull_request"])]) =
      [.MissingPushHook] := by decide

example :
    validateWorkflow
      (.objV [("on", .arrV [.strV "push", .strV "pull_request"])]) = [] := by
  decide

example :
    validateWorkflow
      (.objV [("on",
        .arrV [.strV "push", .strV "pull_request", .strV "schedule"])]) =
      [] := by decide

example :
    validateWorkflow
      (.objV [("on", .objV
        [("push", .objV [("branches", .arrV [.strV "main"]),
                         ("paths", .arrV [.strV "test/*"])]),
         ("pull_request", .objV [("branches", .arrV [.strV "main"])])])]) =
      [.PathsSpecified] := by decide

example :
    validateWorkflow
      (.objV [("on", .objV
        [("push", .objV [("branches", .arrV [.strV "main"])]),
         ("pull_request", .objV [("branches", .arrV [.strV "main"])])])]) =
      [] := by decide

example :
    validateWorkflow
      (.objV [("on", .objV
        [("push", .objV [("branches", .arrV [.strV "main"])]),
         ("pull_request", .objV [("branches", .strV "*")])])]) =
      [.MismatchedBranches] := by decide

example :
    validateWorkflow
      (.objV [("on", .objV
        [("push", .objV [("branches", .strV "*")]),
         ("pull_request", .objV [("branches", .strV "*")])])]) =
      [] := by decide

example :
    validateWorkflow
      (.objV [("on", .objV [("push", .nullV), ("pull_request", .nullV)])]) =
      [] := by decide

example :
    validateWorkflow
      (.objV [("on", .objV
        [("push", .objV [("branches", .arrV [.strV "main"])]),
         ("pull_request", .objV [("branches", .arrV [.strV "feature"])])])]) =
      [.MismatchedBranches] := by decide

example :
    validateWorkflow
      (.objV [("on", .objV
        [("push", .objV
           [("branches", .arrV [.strV "main", .strV "feature"])]),
         ("pull_request", .objV [("branches", .arrV [.strV "main"])])])]) =
      [] := by decide

example :
    validateWorkflow
      (.objV [("on", .objV
        [("push", .objV [("branches", .arrV [.strV "main"])]),
         ("pull_request", .objV
           [("branches", .arrV [.strV "main", .strV "feature"])])])]) =
      [.MismatchedBranches] := by decide

example :
    validateWorkflow
      (.objV [("on", .objV [("push", .numV 1), ("pull_request", .numV 1)])]) =
      [] := by decide

example : validateWorkflow (.objV [("on", .numV 1)]) = [.MissingHooks] := by
  decide

example :
    validateWorkflow (.objV [("on", .numV 1), ("jobs", .numV 1)]) =
      [.MissingHooks] := by decide

example :
    validateWorkflow (.objV [("on", .numV 1), ("jobs", .arrV [.numV 1])]) =
      [.MissingHooks] := by decide

example :
    validateWorkflow
      (.objV [("on", .numV 1), ("jobs", .objV [("test", .numV 1)])]) =
      [.MissingHooks] := by decide

example :
    validateWorkflow
      (.objV [("on", .numV 1), ("jobs", .objV [("test", .arrV [.numV 1])])]) =
      [.MissingHooks] := by decide

example :
    validateWorkflow
      (.objV [("on", .numV 1),
              ("jobs", .objV [("test", .objV [("steps", .numV 1)])])]) =
      [.MissingHooks] := by decide

example :
    validateWorkflow
      (.objV [("on", .numV 1),
              ("jobs", .objV [("test", .objV [("steps",
                .arrV [.objV [("notrun", .strV "git checkout HEAD^2")]])])])]) =
      [.MissingHooks] := by decide

example :
    validateWorkflow
      (.objV [("on", .numV 1),
              ("jobs", .objV [("test", .arrV [.nullV])])]) =
      [.MissingHooks] := by decide

example : validateWorkflow (.numV 1) = [.MissingHooks] := by decide

example :
    validateWorkflow
      (.objV [("on", .objV
        [("push", .objV [("branches", .numV 1)]),
         ("pull_request", .objV [("branches", .numV 1)])])]) = [] := by decide

example :
    validateWorkflow
      (.objV [("on", .objV
        [("push", .objV [("branches", .arrV [.strV "main"])]),
         ("pull_request", .nullV)])]) = [.MismatchedBranches] := by decide

example :
    validateWorkflow
      (.objV [("on", .objV
        [("push", .objV [("branches", .arrV [.strV "feature/*"])]),
         ("pull_request", .objV [("branches", .strV "feature/moose")])])]) =
      [] := by decide

example :
    validateWorkflow
      (.objV [("on", .objV
        [("push", .objV [("branches", .arrV [.strV "feature/moose"])]),
         ("pull_request", .objV [("branches", .strV "feature/*")])])]) =
      [.MismatchedBranches] := by decide

example :
    validateWorkflow
      (.objV [("on", .arrV [.strV "push", .strV "pull_request"]),
              ("jobs", .objV [("test", .objV [("steps",
                .arrV [.objV [("run", .strV "git checkout HEAD^2")]])])])]) =
      [.CheckoutWrongHead] := by decide

example : patternIsSuperset "main-*" "main" = false := by decide
example : patternIsSuperset "*" "*" = true := by decide
example : patternIsSuperset "*" "main-*" = true := by decide
example : patternIsSuperset "main-*" "*" = false := by decide
example : patternIsSuperset "main" "main" = true := by decide
example : patternIsSuperset "*" "feature/*" = false := by decide
example : patternIsSuperset "**" "feature/*" = true := by decide
example : patternIsSuperset "feature-*" "**" = false := by decide
example : patternIsSuperset "a/**/c" "a/**/d" = false := by decide
example : patternIsSuperset "a/**/c" "a/**" = false := by decide
example : patternIsSuperset "a/**" "a/**/c" = true := by decide
example : patternIsSuperset "a/**/c" "a/main-**/c" = true := by decide
example : patternIsSuperset "a/**/b/**/c" "a/**/d/**/c" = false := by decide
example : patternIsSuperset "a/**/b/**/c" "a/**/b/c/**/c" = true := by decide
example : patternIsSuperset "a/**/b/**/c" "a/**/b/d/**/c" = true := by decide
example : patternIsSuperset "a/**/c/d/**/c" "a/**/b/**/c" = false := by decide
example : patternIsSuperset "a/main-**/c" "a/**/c" = false := by decide

example :
    patternIsSuperset "/robin/*/release/*" "/robin/moose/release/goose" =
      true := by decide

example :
    patternIsSuperset "/robin/moose/release/goose" "/robin/*/release/*" =
      false := by decide

/-! ## Helper lemmas -/

theorem supersetSegs_nil_left (ys : List String) :
    supersetSegs [] ys = ys.isEmpty := by
  unfold supersetSegs
  rfl

theorem supersetSegs_refl (xs : List String) : supersetSegs xs xs = true := by
  induction xs with
  | nil => rfl
  | cons s rest ih =>
      by_cases h : s = "**"
      · subst h
        unfold supersetSegs
        rw [if_pos rfl]
        refine List.any_eq_true.mpr ⟨1, ?_, ?_⟩
        · rw [List.mem_range]
          simp only [List.length_cons]
          omega
        · simpa using ih
      · show (if s = "**" then _ else
            if s = "**" then false
            else if s = "*" then supersetSegs rest rest
            else decide (s = s) && supersetSegs rest rest) = true
        rw [if_neg h, if_neg h]
        by_cases h2 : s = "*"
        · rw [if_pos h2]
          exact ih
        · rw [if_neg h2]
          simp [ih]

theorem supersetSegs_doublestar (ys : List String) :
    supersetSegs ["**"] ys = true := by
  unfold supersetSegs
  rw [if_pos rfl]
  refine List.any_eq_true.mpr ⟨ys.length, ?_, ?_⟩
  · rw [List.mem_range]
    omega
  · rw [List.drop_length]
    rfl

/-! ## Claims about the Pattern Matcher -/

/-- C6: patternIsSuperset is reflexive: for every pattern string p,
patternIsSuperset p p returns true, including patterns containing single-star
and double-star segments. -/
theorem patternIsSuperset_refl (p : String) : patternIsSuperset p p = true :=
  supersetSegs_refl (splitSegs p)

/-- C7: the double-star pattern dominates everything: for every pattern
string p, patternIsSuperset of the double-star pattern over p is true. -/
theorem patternIsSuperset_doublestar_top (p : String) :
    patternIsSuperset "**" p = true := by
  have h : splitSegs "**" = ["**"] := rfl
  unfold patternIsSuperset
  rw [h]
  exact supersetSegs_doublestar (splitSegs p)

/-- C8: a single-segment wildcard never dominates a multi-segment wildcard:
patternIsSuperset of a single star over a double star is false, and in
general a single-star segment of the super pattern never dominates a
double-star segment of the sub pattern at the corresponding position. -/
theorem star_never_covers_doublestar :
    patternIsSuperset "*" "**" = false ∧
      ∀ (xs ys : List String),
        supersetSegs ("*" :: xs) ("**" :: ys) = false := by
  refine ⟨by decide, fun xs ys => ?_⟩
  show (if ("*" : String) = "**" then _ else
      if ("**" : String) = "**" then false
      else if ("*" : String) = "*" then supersetSegs xs ys
      else decide (("*" : String) = "**") && supersetSegs xs ys) = false
  rw [if_neg (by decide), if_pos rfl]

/-! ## Helper lemmas about the Workflow Validator -/

theorem hookErrors_obj {doc : Yaml} {fs : List (String × Yaml)}
    (h : lookupY doc "on" = some (.objV fs)) :
    hookErrors doc = mappingErrors fs := by
  unfold hookErrors
  rw [h]

theorem mappingErrors_both {fs : List (String × Yaml)} {pushV prV : Yaml}
    (h1 : lookupKey "push" fs = some pushV)
    (h2 : lookupKey "pull_request" fs = some prV) :
    mappingErrors fs =
      (if hasKeyY pushV "paths" then [.PathsSpecified] else []) ++
      (if mismatchedB pushV prV then [.MismatchedBranches] else []) := by
  unfold mappingErrors
  rw [h1, h2]

theorem mem_mismatched_iff {doc : Yaml} {fs : List (String × Yaml)}
    {pushV prV : Yaml}
    (hOn : lookupY doc "on" = some (.objV fs))
    (hPush : lookupKey "push" fs = some pushV)
    (hPr : lookupKey "pull_request" fs = some prV) :
    (WorkflowError.MismatchedBranches ∈ validateWorkflow doc ↔
      mismatchedB pushV prV = true) := by
  unfold validateWorkflow
  rw [hookErrors_obj hOn, mappingErrors_both hPush hPr]
  cases hc : anyJobHasCheckout doc <;>
    by_cases hp : hasKeyY pushV "paths" <;>
      cases hb : mismatchedB pushV prV <;>
        simp [checkoutErrors, hc, hp, hb]

/-! ## Claims about the Workflow Validator branch consistency -/

/-- C1: for every mapping-form document whose push and pull_request triggers
both carry a branches filter, validateWorkflow emits MismatchedBranches if
and only if some pattern of the pull_request branch set is covered by no
pattern of the push branch set under patternIsSuperset. -/
theorem mismatched_branches_iff_uncovered
    (doc : Yaml) (fs : List (String × Yaml)) (pushV prV : Yaml)
    (ps qs : List String)
    (hOn : lookupY doc "on" = some (.objV fs))
    (hPush : lookupKey "push" fs = some pushV)
    (hPr : lookupKey "pull_request" fs = some prV)
    (hPs : branchFilter pushV = some ps)
    (hQs : branchFilter prV = some qs) :
    (WorkflowError.MismatchedBranches ∈ validateWorkflow doc ↔
      ∃ p ∈ qs, ∀ q ∈ ps, patternIsSuperset q p = false) := by
  rw [mem_mismatched_iff hOn hPush hPr]
  unfold mismatchedB branchPatterns
  rw [hPs, hQs]
  simp

/-- Witness for C1: the mismatched document of the repository test suite,
push filtering to main and pull_request to feature. -/
theorem mismatched_branches_iff_uncovered_app :
    WorkflowError.MismatchedBranches ∈ validateWorkflow
      (.objV [("on", .objV
        [("push", .objV [("branches", .arrV [.strV "main"])]),
         ("pull_request", .objV [("branches", .arrV [.strV "feature"])])])]) :=
  (mismatched_branches_iff_uncovered
      (.objV [("on", .objV
        [("push", .objV [("branches", .arrV [.strV "main"])]),
         ("pull_request", .objV [("branches", .arrV [.strV "feature"])])])])
      [("push", .objV [("branches", .arrV [.strV "main"])]),
       ("pull_request", .objV [("branches", .arrV [.strV "feature"])])]
      (.objV [("branches", .arrV [.strV "main"])])
      (.objV [("branches", .arrV [.strV "feature"])])
      ["main"] ["feature"]
      rfl rfl rfl rfl rfl).mpr
    ⟨"feature", by simp, by decide⟩

/-- C2 counterexample: the document of the repository test in which
pull_request is null while push filters to main: despite the pull_request
trigger carrying no branches filter, MismatchedBranches is emitted, so the
branch-consistency check does not require both sides to carry one. -/
theorem pull_request_null_emits_mismatched :
    validateWorkflow (.objV [("on", .objV
      [("push", .objV [("branches", .arrV [.strV "main"])]),
       ("pull_request", .nullV)])]) = [.MismatchedBranches] := by decide

/-- C2 amended: when the pull_request trigger carries no branches filter it
is normalized to the all-branches pattern, and the check still applies
whenever push carries a filter: MismatchedBranches is emitted iff no push
pattern dominates the double-star pattern. -/
theorem absent_pr_branches_check
    (doc : Yaml) (fs : List (String × Yaml)) (pushV prV : Yaml)
    (ps : List String)
    (hOn : lookupY doc "on" = some (.objV fs))
    (hPush : lookupKey "push" fs = some pushV)
    (hPr : lookupKey "pull_request" fs = some prV)
    (hPs : branchFilter pushV = some ps)
    (hNone : branchFilter prV = none) :
    (WorkflowError.MismatchedBranches ∈ validateWorkflow doc ↔
      ∀ q ∈ ps, patternIsSuperset q "**" = false) := by
  rw [mem_mismatched_iff hOn hPush hPr]
  unfold mismatchedB branchPatterns
  rw [hPs, hNone]
  simp

/-- Witness for the amended C2: at the test-suite document with a null
pull_request trigger and push filtering to main, the diagnostic fires. -/
theorem absent_pr_branches_check_app :
    WorkflowError.MismatchedBranches ∈ validateWorkflow
      (.objV [("on", .objV
        [("push", .objV [("branches", .arrV [.strV "main"])]),
         ("pull_request", .nullV)])]) :=
  (absent_pr_branches_check
      (.objV [("on", .objV
        [("push", .objV [("branches", .arrV [.strV "main"])]),
         ("pull_request", .nullV)])])
      [("push", .objV [("branches", .arrV [.strV "main"])]),
       ("pull_request", .nullV)]
      (.objV [("branches", .arrV [.strV "main"])]) .nullV ["main"]
      rfl rfl rfl rfl rfl).mpr (by decide)

/-! ## Claims about the wrong-checkout check and hook-presence check -/

/-- C3: every document containing some job step whose run command string
contains the literal checkout marker gets CheckoutWrongHead in the result of
validateWorkflow, regardless of the shape of the on field and of any
diagnostics the hook checks emitted. -/
theorem checkout_head2_reported
    (doc : Yaml) (jobs : List (String × Yaml)) (jname : String) (job : Yaml)
    (steps : List Yaml) (step : Yaml) (r : String)
    (hJobs : lookupY doc "jobs" = some (.objV jobs))
    (hJob : (jname, job) ∈ jobs)
    (hSteps : lookupY job "steps" = some (.arrV steps))
    (hStep : step ∈ steps)
    (hRun : lookupY step "run" = some (.strV r))
    (hSub : containsSeq checkoutMarker.data r.data = true) :
    WorkflowError.CheckoutWrongHead ∈ validateWorkflow doc := by
  have hstep : stepHasCheckout step = true := by
    unfold stepHasCheckout
    rw [hRun]
    exact hSub
  have hjob : jobHasCheckout job = true := by
    unfold jobHasCheckout
    rw [hSteps]
    exact List.any_eq_true.mpr ⟨step, hStep, hstep⟩
  have hany : anyJobHasCheckout doc = true := by
    unfold anyJobHasCheckout
    rw [hJobs]
    exact List.any_eq_true.mpr ⟨(jname, job), hJob, hjob⟩
  unfold validateWorkflow checkoutErrors
  rw [hany]
  simp

/-- Witness for C3: the test-suite document with a valid on sequence and one
step running the forbidden checkout command. -/
theorem checkout_head2_reported_app :
    WorkflowError.CheckoutWrongHead ∈ validateWorkflow
      (.objV [("on", .arrV [.strV "push", .strV "pull_request"]),
              ("jobs", .objV [("test", .objV [("steps",
                .arrV [.objV [("run", .strV "git checkout HEAD^2")]])])])]) :=
  checkout_head2_reported
    (.objV [("on", .arrV [.strV "push", .strV "pull_request"]),
            ("jobs", .objV [("test", .objV [("steps",
              .arrV [.objV [("run", .strV "git checkout HEAD^2")]])])])])
    [("test", .objV [("steps",
      .arrV [.objV [("run", .strV "git checkout HEAD^2")]])])]
    "test"
    (.objV [("steps", .arrV [.objV [("run", .strV "git checkout HEAD^2")]])])
    [.objV [("run", .strV "git checkout HEAD^2")]]
    (.objV [("run", .strV "git checkout HEAD^2")])
    "git checkout HEAD^2"
    rfl (by simp) rfl (by simp) rfl (by decide)

/-- Whether the on field is absent or of a shape other than mapping,
sequence or string, in which case the hook-shape checks treat the hooks as
missing. -/
def onShapeMissing (doc : Yaml) : Bool :=
  match lookupY doc "on" with
  | some (.strV _) => false
  | some (.arrV _) => false
  | some (.objV _) => false
  | _ => true

/-- C4 counterexample: a document whose on field is a number and whose jobs
contain a step running the forbidden checkout command: the result is not the
one-element list of MissingHooks, since the wrong-checkout check still
fires. -/
theorem missing_on_with_checkout_not_singleton :
    validateWorkflow (.objV [("on", .numV 1),
      ("jobs", .objV [("test", .objV [("steps",
        .arrV [.objV [("run", .strV "git checkout HEAD^2")]])])])]) =
      [.MissingHooks, .CheckoutWrongHead] ∧
    validateWorkflow (.objV [("on", .numV 1),
      ("jobs", .objV [("test", .objV [("steps",
        .arrV [.objV [("run", .strV "git checkout HEAD^2")]])])])]) ≠
      [.MissingHooks] := by
  constructor
  · decide
  · decide

/-- C4 amended: for every document whose on field is absent or of a shape
other than mapping, sequence or string, the hook-shape checks are skipped
and MissingHooks is the sole hook diagnostic; the wrong-checkout check still
runs, so the result is MissingHooks followed by whatever it emits, and is
exactly the one-element list of MissingHooks precisely when no job step runs
the forbidden checkout command. -/
theorem missing_on_yields_missing_hooks
    (doc : Yaml) (h : onShapeMissing doc = true) :
    validateWorkflow doc = .MissingHooks :: checkoutErrors doc := by
  have hh : hookErrors doc = [.MissingHooks] := by
    unfold onShapeMissing at h
    unfold hookErrors
    cases hl : lookupY doc "on" with
    | none => rfl
    | some v =>
        rw [hl] at h
        cases v <;> first | rfl | simp at h
  unfold validateWorkflow
  rw [hh]
  rfl

/-- Witness for the amended C4: a document that is itself a bare number has
missing on shape and validates to MissingHooks alone. -/
theorem missing_on_yields_missing_hooks_app :
    validateWorkflow (.numV 1) = [.MissingHooks] := by
  rw [missing_on_yields_missing_hooks (.numV 1) rfl]
  decide

/-! ## Totality and shape claims -/

theorem eventListErrors_length (xs : List Yaml) :
    (eventListErrors xs).length ≤ 1 := by
  unfold eventListErrors
  split
  · simp
  · split <;> simp

theorem mappingErrors_length (fs : List (String × Yaml)) :
    (mappingErrors fs).length ≤ 2 := by
  unfold mappingErrors
  split
  · simp
  · simp
  · simp
  · rw [List.length_append]
    split <;> split <;> simp

theorem checkoutErrors_length (doc : Yaml) :
    (checkoutErrors doc).length ≤ 1 := by
  unfold checkoutErrors
  split <;> simp

theorem hookErrors_length (doc : Yaml) : (hookErrors doc).length ≤ 2 := by
  unfold hookErrors
  split
  · exact le_trans (eventListErrors_length _) (by omega)
  · exact le_trans (eventListErrors_length _) (by omega)
  · exact mappingErrors_length _
  · simp

/-- C5: validateWorkflow is a total function of the arbitrary deserialized
document: on every loosely typed value, including non-objects and malformed
shapes, it evaluates to a list of diagnostics, here bounded by the number of
checks that can fire; malformed shapes degrade to not-applicable checks
rather than faults. -/
theorem validateWorkflow_total_bounded (doc : Yaml) :
    (validateWorkflow doc).length ≤ 3 := by
  have hc := checkoutErrors_length doc
  have hh := hookErrors_length doc
  unfold validateWorkflow
  rw [List.length_append]
  omega

/-- C9: for the sequence form of the on field, push membership is required
and checked before pull_request membership: a sequence lacking push reports
exactly the missing push hook, a sequence with push but lacking pull_request
reports exactly the missing pull_request hook, and a sequence lacking both
reports only the missing push hook. -/
theorem array_form_hook_precedence (xs : List Yaml) :
    (containsStrY xs "push" = false →
      validateWorkflow (.objV [("on", .arrV xs)]) = [.MissingPushHook]) ∧
    (containsStrY xs "push" = true → containsStrY xs "pull_request" = false →
      validateWorkflow (.objV [("on", .arrV xs)]) =
        [.MissingPullRequestHook]) ∧
    (containsStrY xs "push" = false → containsStrY xs "pull_request" = false →
      validateWorkflow (.objV [("on", .arrV xs)]) = [.MissingPushHook]) := by
  have hv : validateWorkflow (.objV [("on", .arrV xs)]) =
      eventListErrors xs ++ [] := rfl
  refine ⟨fun h1 => ?_, fun h1 h2 => ?_, fun h1 h2 => ?_⟩ <;>
    rw [hv, List.append_nil] <;> unfold eventListErrors
  · rw [h1]
    rfl
  · rw [h1, h2]
    rfl
  · rw [h1]
    rfl

/-- Witness for C9: a sequence carrying neither event, for which only the
missing push hook is reported. -/
theorem array_form_hook_precedence_app :
    validateWorkflow (.objV [("on", .arrV [.strV "schedule"])]) =
      [.MissingPushHook] :=
  (array_form_hook_precedence [.strV "schedule"]).2.2 (by decide) (by decide)

/-- Whether a value is neither a mapping nor null. -/
def nonObjectNonNull (y : Yaml) : Bool :=
  match y with
  | .objV _ => false
  | .nullV => false
  | _ => true

theorem lookupY_of_nonObject (v : Yaml) (h : nonObjectNonNull v = true)
    (k : String) : lookupY v k = none := by
  cases v <;> first | rfl | simp [nonObjectNonNull] at h

/-- C10: in mapping form the presence of the push and pull_request keys
alone satisfies the hook checks: binding both keys to values that are
neither mappings nor null makes the paths and branch-consistency checks not
applicable, and validateWorkflow returns the empty list. -/
theorem mapping_key_presence_suffices (v w : Yaml)
    (hv : nonObjectNonNull v = true) (hw : nonObjectNonNull w = true) :
    validateWorkflow (.objV [("on",
      .objV [("push", v), ("pull_request", w)])]) = [] := by
  have hrfl : validateWorkflow (.objV [("on",
      .objV [("push", v), ("pull_request", w)])]) =
      ((if hasKeyY v "paths" then [.PathsSpecified] else []) ++
        (if mismatchedB v w then [.MismatchedBranches] else [])) ++ [] := rfl
  have h1 : hasKeyY v "paths" = false := by
    unfold hasKeyY
    rw [lookupY_of_nonObject v hv]
    rfl
  have h2 : mismatchedB v w = false := by
    unfold mismatchedB branchPatterns branchFilter
    rw [lookupY_of_nonObject v hv, lookupY_of_nonObject w hw]
    rfl
  rw [hrfl, h1, h2]
  rfl

/-- Witness for C10 at the test-suite document binding both triggers to the
number one. -/
theorem mapping_key_presence_suffices_app :
    validateWorkflow (.objV [("on",
      .objV [("push", .numV 1), ("pull_request", .numV 1)])]) = [] :=
  mapping_key_presence_suffices (.numV 1) (.numV 1) rfl rfl
